import Mathlib

set_option maxRecDepth 8000
set_option maxHeartbeats 1000000

namespace ARC4

/-! Shallow embedding of the ARC4CryptoTransform class from ARC4Plus.py.
Byte arrays are modelled as List Nat (every entry a value in 0..255 where the
Python code guarantees it); Python `& 0xFF` becomes `% 256`.  Python's
parallel-assignment swap and in-place mutation become explicit state passing
on the ARC4State record. -/

/-- Multiplier table `_A` of ARC4CryptoTransform (61 entries). -/
def tableA : List Nat := [
  0x09, 0x0D, 0x11, 0x15, 0x19, 0x1d, 0x21, 0x25,
  0x29, 0x2d, 0x31, 0x35, 0x39, 0x3d, 0x41, 0x45,
  0x49, 0x4d, 0x51, 0x55, 0x59, 0x5d, 0x61, 0x65,
  0x69, 0x6d, 0x71, 0x75, 0x79, 0x7d, 0x81, 0x85,
  0x89, 0x8d, 0x91, 0x95, 0x99, 0x9d, 0xa1, 0xa5,
  0xa9, 0xad, 0xb1, 0xb5, 0xb9, 0xbd, 0xc1, 0xc5,
  0xc9, 0xcd, 0xd1, 0xd5, 0xd9, 0xdd, 0xe1, 0xe5,
  0xe9, 0xed, 0xf1, 0xf5, 0xf9]

/-- Increment table `_C` of ARC4CryptoTransform (52 entries). -/
def tableC : List Nat := [
  0x05, 0x07, 0x0B, 0x0D, 0x11, 0x13, 0x17, 0x1d,
  0x1f, 0x25, 0x29, 0x2b, 0x2f, 0x35, 0x3b, 0x3d,
  0x43, 0x47, 0x49, 0x4f, 0x53, 0x59, 0x61, 0x65,
  0x67, 0x6b, 0x6d, 0x71, 0x7f, 0x83, 0x89, 0x8b,
  0x95, 0x97, 0x9d, 0xa3, 0xa7, 0xad, 0xb3, 0xb5,
  0xbf, 0xc1, 0xc5, 0xc7, 0xd3, 0xdf, 0xe3, 0xe5,
  0xe9, 0xef, 0xf1, 0xfb]

/-- Cipher state of one engine instance: the fields `_s1, _s2, _x1, _y1, _x2,
_y2, _disposed` of ARC4CryptoTransform. -/
structure ARC4State where
  s1 : List Nat
  s2 : List Nat
  x1 : Nat
  y1 : Nat
  x2 : Nat
  y2 : Nat
  disposed : Bool
deriving DecidableEq, Repr

/-- Python parallel-assignment swap `l[i], l[j] = l[j], l[i]`: both right-hand
values are read from the original list, then written left to right. -/
def swapL (l : List Nat) (i j : Nat) : List Nat :=
  (l.set i (l.getD j 0)).set j (l.getD i 0)

/-- Body of the `for i in range(256)` loop of `_lcr`, producing the block
entries in order; the running value x is threaded through. -/
def lcrLoop (a c r : Nat) : Nat → Nat → List Nat
  | 0, _ => []
  | n + 1, x =>
    let x' := (a * x + c) % 256
    (r ^^^ x') :: lcrLoop a c r n x'

/-- Method `_lcr`: fills a 256-entry block from a 4-byte seed. -/
def lcr (iv : List Nat) : List Nat :=
  let r := iv.getD 0 0
  let x := iv.getD 1 0
  let a := tableA.getD (iv.getD 2 0 % tableA.length) 0
  let c := tableC.getD (iv.getD 3 0 % tableC.length) 0
  lcrLoop a c r 256 x

/-- Key-mixing loop of `_ksa` (i counts the remaining iterations via fuel;
j is the running accumulator).  Called with fuel 256, i = 0, j = 0.
Note `key.getD (i % key.length) 0` is only meaningful for a non-empty key:
for an empty key Python raises ZeroDivisionError on `i % 0`, which the
`construct` wrapper below models explicitly. -/
def ksaLoop (key : List Nat) : Nat → Nat → Nat → List Nat → List Nat
  | 0, _, _, blk => blk
  | n + 1, i, j, blk =>
    let j' := (j + blk.getD i 0 + key.getD (i % key.length) 0) % 256
    ksaLoop key n (i + 1) j' (swapL blk i j')

/-- Method `_prga` restricted to the block it is passed: advances the pair
(x, y) and swaps.  Crucially, in the Python code the pair is ALWAYS the
fields `_x1, _y1`, whichever block is passed. -/
def prgaOn (blk : List Nat) (x y : Nat) : List Nat × Nat × Nat :=
  let x' := (x + 1) % 256
  let y' := (y + blk.getD x' 0) % 256
  (swapL blk x' y', x', y')

/-- Call `self._prga(self._s1)`: advances `_x1, _y1`, permutes `_s1`. -/
def prgaS1 (st : ARC4State) : ARC4State :=
  let r := prgaOn st.s1 st.x1 st.y1
  { st with s1 := r.1, x1 := r.2.1, y1 := r.2.2 }

/-- Call `self._prga(self._s2)`: permutes `_s2` but, exactly as the Python
method does, advances `_x1, _y1` (never `_x2, _y2`). -/
def prgaS2 (st : ARC4State) : ARC4State :=
  let r := prgaOn st.s2 st.x1 st.y1
  { st with s2 := r.1, x1 := r.2.1, y1 := r.2.2 }

/-- Iterate a state transformer n times (the warm-up loops of `_ksa`). -/
def iterN (f : ARC4State → ARC4State) : Nat → ARC4State → ARC4State
  | 0, st => st
  | n + 1, st => iterN f n (f st)

/-- Method `_ksa` applied to `_s1`: key mixing then 256 warm-up PRGA steps. -/
def ksaS1 (key : List Nat) (st : ARC4State) : ARC4State :=
  iterN prgaS1 256 { st with s1 := ksaLoop key 256 0 0 st.s1 }

/-- Method `_ksa` applied to `_s2`: key mixing then 256 warm-up PRGA steps
(which, per `_prga`, advance `_x1, _y1`). -/
def ksaS2 (key : List Nat) (st : ARC4State) : ARC4State :=
  iterN prgaS2 256 { st with s2 := ksaLoop key 256 0 0 st.s2 }

/-- Shifted-and-rotated IV computed in `_initialize` for the second block:
add 128 mod 256 to each of the four IV bytes, then move byte 0 to the end. -/
def shiftIV (iv : List Nat) : List Nat :=
  let s := (List.range 4).map (fun i => (iv.getD i 0 + 128) % 256)
  s.drop 1 ++ [s.getD 0 0]

/-- State after the two `_lcr` fills of `_initialize`, before either `_ksa`
call; all four indices start at 0 as in `__init__`. -/
def preKsaState (iv : List Nat) : ARC4State :=
  { s1 := lcr iv, s2 := lcr (shiftIV iv),
    x1 := 0, y1 := 0, x2 := 0, y2 := 0, disposed := false }

/-- Full `_initialize`: LCR fills then `_ksa` on `_s1` and on `_s2`. -/
def initState (key iv : List Nat) : ARC4State :=
  ksaS2 key (ksaS1 key (preKsaState iv))

/-- Errors observable from `__init__`: Python ValueError on the explicit
argument checks (InvalidArgument), and the ZeroDivisionError that `_ksa`
raises via `i % key_length` when the key is empty. -/
inductive CtorErr where
  | invalidArgument : String → CtorErr
  | zeroDivision : CtorErr
deriving DecidableEq, Repr

/-- Constructor `__init__(key, iv)` with its validation, key/iv given as
Option to model Python None.  An empty (but present) key passes every
explicit check and then crashes inside `_ksa` with ZeroDivisionError on
`i % 0`; since Lean's `% 0` is total, that crash is surfaced here as an
explicit branch instead of inside ksaLoop. -/
def construct (key? iv? : Option (List Nat)) : Except CtorErr ARC4State :=
  match key? with
  | none => Except.error (CtorErr.invalidArgument "Key cannot be null.")
  | some key =>
    match iv? with
    | none => Except.error (CtorErr.invalidArgument "Initialization vector cannot be null.")
    | some iv =>
      if iv.length ≠ 4 then
        Except.error (CtorErr.invalidArgument "Initialization vector must be 4 bytes long.")
      else if key.length = 0 then Except.error CtorErr.zeroDivision
      else Except.ok (initState key iv)

/-- Errors observable from the transform methods: Python ValueError on the
offset/count validations (OutOfRange, message recorded), and the ValueError
raised by a bytearray element assignment of a value outside 0..255. -/
inductive TErr where
  | outOfRange : String → TErr
  | byteRange : TErr
deriving DecidableEq, Repr

/-- Loop body of transform_block for one position: two `_prga` calls, the two
raw bytes k1, k2, and the combined byte k.  Mirrors lines 179-185 of
ARC4Plus.py; note that k is NOT reduced mod 256 there, so the returned k can
exceed 255. -/
def nextKey (st : ARC4State) : ARC4State × Nat :=
  let st1 := prgaS1 st
  let k1 := st1.s1.getD ((st1.s1.getD st1.x1 0 + st1.s1.getD st1.y1 0) % 256) 0
  let st2 := prgaS2 st1
  let k2 := st2.s2.getD ((st2.s2.getD st2.x2 0 + st2.s2.getD st2.y2 0) % 256) 0
  (st2, (k1 + k2) ^^^ ((k1 <<< 5) ||| (k2 >>> 3)))

/-- The `for i in range(input_count)` loop of transform_block, writing into a
caller-supplied list (Python list semantics: any integer may be stored).
inPos and outPos are input_offset + i and output_offset + i. -/
def transformLoop : Nat → ARC4State → List Nat → Nat → List Nat → Nat → List Nat × ARC4State
  | 0, st, _, _, out, _ => (out, st)
  | n + 1, st, inp, inPos, out, outPos =>
    let r := nextKey st
    transformLoop n r.1 inp (inPos + 1) (out.set outPos (inp.getD inPos 0 ^^^ r.2)) (outPos + 1)

/-- Method transform_block: the four offset/count validations in source
order, then the keystream loop.  Returns (raised error if any, return value,
output buffer contents, cipher state) so that the unchanged buffer and state
on a validation failure are explicit.  The Python `< 0` halves of the checks
are vacuous for Nat-modelled offsets, and the None checks are inexpressible
for a List-typed buffer; the remaining comparisons are verbatim. -/
def transform_block (st : ARC4State) (input : List Nat) (inputOffset count : Nat)
    (output : List Nat) (outputOffset : Nat) :
    Option TErr × Nat × List Nat × ARC4State :=
  if inputOffset ≥ input.length then
    (some (TErr.outOfRange "Input offset is out of range for the input buffer."), 0, output, st)
  else if inputOffset + count > input.length then
    (some (TErr.outOfRange "Input count is out of range for the input buffer."), 0, output, st)
  else if outputOffset ≥ output.length then
    (some (TErr.outOfRange "Output offset is out of range for the output buffer."), 0, output, st)
  else if outputOffset + count > output.length then
    (some (TErr.outOfRange "Output buffer is too small to receive the transformed data."), 0, output, st)
  else
    let r := transformLoop count st input inputOffset output outputOffset
    (none, count, r.1, r.2)

/-- The transform loop as executed by transform_final_block, where the output
is the freshly allocated bytearray: a bytearray element assignment of a value
outside 0..255 raises ValueError, aborting the call. -/
def finalLoop : Nat → ARC4State → List Nat → Nat → List Nat → Nat → Except TErr (List Nat × ARC4State)
  | 0, st, _, _, out, _ => Except.ok (out, st)
  | n + 1, st, inp, inPos, out, i =>
    let r := nextKey st
    let v := inp.getD inPos 0 ^^^ r.2
    if v ≥ 256 then Except.error TErr.byteRange
    else finalLoop n r.1 inp (inPos + 1) (out.set i v) (i + 1)

/-- Method transform_final_block: its own two offset/count validations, then
the delegated transform_block call on `bytearray(input_count)` with output
offset 0.  The inner transform_block re-checks `output_offset >=
len(output_buffer)`, i.e. `0 >= input_count`, so a zero count fails with the
output-offset OutOfRange error; otherwise the inner checks all pass and the
loop runs with bytearray write semantics. -/
def transform_final_block (st : ARC4State) (input : List Nat) (inputOffset count : Nat) :
    Except TErr (List Nat × ARC4State) :=
  if inputOffset ≥ input.length then
    Except.error (TErr.outOfRange "Input offset is out of range for the input buffer.")
  else if inputOffset + count > input.length then
    Except.error (TErr.outOfRange "Input count is out of range for the input buffer.")
  else if count = 0 then
    Except.error (TErr.outOfRange "Output offset is out of range for the output buffer.")
  else finalLoop count st input inputOffset (List.replicate count 0) 0

/-- Method dispose: zero both blocks and all four indices, set the flag;
idempotent. -/
def dispose (st : ARC4State) : ARC4State :=
  if st.disposed then st
  else { s1 := List.replicate 256 0, s2 := List.replicate 256 0,
         x1 := 0, y1 := 0, x2 := 0, y2 := 0, disposed := true }

/-- Successive transform_block calls over consecutive chunks: chunk c is
processed at input and output offset off, then off advances by c.  A raised
error propagates (stops the sequence), as a Python exception would. -/
def processChunksAux : List Nat → Nat → ARC4State → List Nat → List Nat →
    Option TErr × List Nat × ARC4State
  | [], _, st, _, out => (none, out, st)
  | c :: cs, off, st, inp, out =>
    let r := transform_block st inp off c out off
    match r.1 with
    | some e => (some e, r.2.2.1, r.2.2.2)
    | none => processChunksAux cs (off + c) r.2.2.2 inp r.2.2.1

/-- Key bytes of the ASCII string "password" used by the module's own test. -/
def pwKey : List Nat := [0x70, 0x61, 0x73, 0x73, 0x77, 0x6F, 0x72, 0x64]

/-- All-zero 4-byte IV. -/
def ivZero : List Nat := [0, 0, 0, 0]

/-- ASCII bytes of "Hello, world!". -/
def helloBytes : List Nat := [72, 101, 108, 108, 111, 44, 32, 119, 111, 114, 108, 100, 33]

/-- Concrete small engine state with the disposed flag clear; validation in
transform_block is state-independent, and dispose ignores the tables, so this
state serves as the concrete instance for witnesses. -/
def sampleState : ARC4State :=
  { s1 := [], s2 := [], x1 := 0, y1 := 0, x2 := 0, y2 := 0, disposed := false }

/-- State of every disposed engine: both tables zeroed, indices zero, flag
set.  Equals dispose st for any not-yet-disposed st. -/
def zeroState : ARC4State :=
  { s1 := List.replicate 256 0, s2 := List.replicate 256 0,
    x1 := 0, y1 := 0, x2 := 0, y2 := 0, disposed := true }

/-- Modelled from the words of claim C6: LCR block with the increment chosen
as IncrementTable[iv[3] mod 50] (and the multiplier as
MultiplierTable[iv[2] mod 61]); the loop itself is the one of 4.1. -/
def lcrClaimC6 (iv : List Nat) : List Nat :=
  lcrLoop (tableA.getD (iv.getD 2 0 % 61) 0) (tableC.getD (iv.getD 3 0 % 50) 0)
    (iv.getD 0 0) 256 (iv.getD 1 0)

/-- Amended form of the claim-C6 block: identical except that the increment
table really has 52 entries, so the selector is reduced mod 52. -/
def lcrSpecAmended (iv : List Nat) : List Nat :=
  lcrLoop (tableA.getD (iv.getD 2 0 % 61) 0) (tableC.getD (iv.getD 3 0 % 52) 0)
    (iv.getD 0 0) 256 (iv.getD 1 0)

/-- Seed of S2 in the words of the spec: add 128 (mod 256) to every IV byte,
then rotate the 4-byte result left by one position. -/
def s2SeedSpec (iv : List Nat) : List Nat :=
  let s := iv.map (fun b => (b + 128) % 256)
  s.drop 1 ++ s.take 1

/-- Both S-blocks zeroed, as after dispose; the indices are unconstrained
because the zero tables alone force a zero keystream. -/
def zeroBlocks (st : ARC4State) : Prop :=
  st.s1 = List.replicate 256 0 ∧ st.s2 = List.replicate 256 0


/-! Kernel-evaluation twins.  The concrete engine runs proved below make the
kernel evaluate 256-entry table updates through more than a thousand loop
iterations.  The pattern-matching definitions above reduce through brecOn,
which is far too costly for that, so each recursive function involved gets a
twin written with bare recursors, proved pointwise equal to the original;
the concrete runs are then evaluated on the twins. -/

/-- Recursor twin of List.getD l n 0. -/
def getL (l : List Nat) (n : Nat) : Nat :=
  List.rec (fun _ => 0) (fun a _ ih n => Nat.rec a (fun m _ => ih m) n) l n

/-- Recursor twin of List.set. -/
def setL (l : List Nat) (n : Nat) (v : Nat) : List Nat :=
  List.rec (fun _ => []) (fun a as ih n => Nat.rec (v :: as) (fun m _ => a :: ih m) n) l n

/-- Recursor twin of swapL. -/
def swapLR (l : List Nat) (i j : Nat) : List Nat :=
  setL (setL l i (getL l j)) j (getL l i)

/-- Recursor twin of prgaS1. -/
def prgaS1R (st : ARC4State) : ARC4State :=
  let x' := (st.x1 + 1) % 256
  let y' := (st.y1 + getL st.s1 x') % 256
  { st with s1 := swapLR st.s1 x' y', x1 := x', y1 := y' }

/-- Recursor twin of prgaS2. -/
def prgaS2R (st : ARC4State) : ARC4State :=
  let x' := (st.x1 + 1) % 256
  let y' := (st.y1 + getL st.s2 x') % 256
  { st with s2 := swapLR st.s2 x' y', x1 := x', y1 := y' }

/-- Recursor twin of ksaLoop. -/
def ksaLoopR (key : List Nat) (fuel : Nat) : Nat → Nat → List Nat → List Nat :=
  Nat.rec (fun _ _ blk => blk)
    (fun _ ih i j blk =>
      let j' := (j + getL blk i + getL key (i % key.length)) % 256
      ih (i + 1) j' (swapLR blk i j')) fuel

/-- Recursor twin of iterN. -/
def iterR (f : ARC4State → ARC4State) (n : Nat) : ARC4State → ARC4State :=
  Nat.rec (fun st => st) (fun _ ih st => ih (f st)) n

/-! Intermediate values of the concrete engine construction with key
"password" and the all-zero IV, one literal per phase (after each LCR fill,
key-mixing pass and warm-up loop), so that every kernel evaluation below
covers just one phase. -/

def L1 : List Nat := [
  5, 50, 199, 4, 41, 118, 43, 136, 205, 58, 15, 140, 241, 126, 115, 16,
  149, 66, 87, 20, 185, 134, 187, 152, 93, 74, 159, 156, 129, 142, 3, 32,
  37, 82, 231, 36, 73, 150, 75, 168, 237, 90, 47, 172, 17, 158, 147, 48,
  181, 98, 119, 52, 217, 166, 219, 184, 125, 106, 191, 188, 161, 174, 35, 64,
  69, 114, 7, 68, 105, 182, 107, 200, 13, 122, 79, 204, 49, 190, 179, 80,
  213, 130, 151, 84, 249, 198, 251, 216, 157, 138, 223, 220, 193, 206, 67, 96,
  101, 146, 39, 100, 137, 214, 139, 232, 45, 154, 111, 236, 81, 222, 211, 112,
  245, 162, 183, 116, 25, 230, 27, 248, 189, 170, 255, 252, 225, 238, 99, 128,
  133, 178, 71, 132, 169, 246, 171, 8, 77, 186, 143, 12, 113, 254, 243, 144,
  21, 194, 215, 148, 57, 6, 59, 24, 221, 202, 31, 28, 1, 14, 131, 160,
  165, 210, 103, 164, 201, 22, 203, 40, 109, 218, 175, 44, 145, 30, 19, 176,
  53, 226, 247, 180, 89, 38, 91, 56, 253, 234, 63, 60, 33, 46, 163, 192,
  197, 242, 135, 196, 233, 54, 235, 72, 141, 250, 207, 76, 177, 62, 51, 208,
  85, 2, 23, 212, 121, 70, 123, 88, 29, 10, 95, 92, 65, 78, 195, 224,
  229, 18, 167, 228, 9, 86, 11, 104, 173, 26, 239, 108, 209, 94, 83, 240,
  117, 34, 55, 244, 153, 102, 155, 120, 61, 42, 127, 124, 97, 110, 227, 0]

def L2 : List Nat := [
  103, 174, 213, 220, 195, 138, 49, 184, 31, 102, 141, 148, 123, 66, 233, 112,
  215, 30, 69, 76, 51, 250, 161, 40, 143, 214, 253, 4, 235, 178, 89, 224,
  71, 142, 181, 188, 163, 106, 17, 152, 255, 70, 109, 116, 91, 34, 201, 80,
  183, 254, 37, 44, 19, 218, 129, 8, 111, 182, 221, 228, 203, 146, 57, 192,
  39, 110, 149, 156, 131, 74, 241, 120, 223, 38, 77, 84, 59, 2, 169, 48,
  151, 222, 5, 12, 243, 186, 97, 232, 79, 150, 189, 196, 171, 114, 25, 160,
  7, 78, 117, 124, 99, 42, 209, 88, 191, 6, 45, 52, 27, 226, 137, 16,
  119, 190, 229, 236, 211, 154, 65, 200, 47, 118, 157, 164, 139, 82, 249, 128,
  231, 46, 85, 92, 67, 10, 177, 56, 159, 230, 13, 20, 251, 194, 105, 240,
  87, 158, 197, 204, 179, 122, 33, 168, 15, 86, 125, 132, 107, 50, 217, 96,
  199, 14, 53, 60, 35, 234, 145, 24, 127, 198, 237, 244, 219, 162, 73, 208,
  55, 126, 165, 172, 147, 90, 1, 136, 239, 54, 93, 100, 75, 18, 185, 64,
  167, 238, 21, 28, 3, 202, 113, 248, 95, 166, 205, 212, 187, 130, 41, 176,
  23, 94, 133, 140, 115, 58, 225, 104, 207, 22, 61, 68, 43, 242, 153, 32,
  135, 206, 245, 252, 227, 170, 81, 216, 63, 134, 173, 180, 155, 98, 9, 144,
  247, 62, 101, 108, 83, 26, 193, 72, 175, 246, 29, 36, 11, 210, 121, 0]

def M1 : List Nat := [
  79, 29, 7, 5, 159, 45, 92, 72, 145, 138, 171, 129, 94, 50, 83, 90,
  125, 46, 226, 156, 193, 167, 81, 255, 200, 220, 219, 168, 218, 154, 93, 205,
  8, 231, 164, 191, 127, 114, 33, 25, 41, 202, 172, 6, 20, 106, 118, 139,
  120, 187, 201, 141, 248, 113, 206, 102, 73, 42, 21, 115, 88, 153, 175, 14,
  151, 237, 177, 84, 155, 224, 61, 186, 10, 34, 28, 239, 123, 188, 236, 137,
  78, 161, 225, 99, 180, 251, 173, 214, 131, 51, 39, 207, 147, 13, 54, 87,
  253, 195, 49, 222, 100, 170, 216, 213, 223, 148, 240, 9, 228, 221, 104, 69,
  1, 64, 232, 184, 47, 185, 15, 196, 166, 57, 27, 140, 247, 62, 254, 132,
  157, 150, 77, 146, 160, 31, 89, 80, 190, 126, 82, 112, 152, 169, 44, 158,
  48, 163, 189, 95, 91, 30, 135, 144, 227, 121, 60, 243, 37, 107, 40, 86,
  103, 101, 178, 122, 52, 70, 22, 212, 245, 105, 24, 230, 142, 210, 58, 71,
  208, 36, 250, 198, 3, 119, 194, 85, 67, 134, 56, 235, 217, 162, 211, 252,
  246, 97, 181, 4, 165, 110, 98, 238, 143, 204, 12, 19, 96, 35, 116, 74,
  244, 76, 203, 197, 229, 68, 215, 249, 128, 2, 75, 242, 182, 192, 32, 17,
  38, 111, 130, 199, 43, 149, 136, 109, 66, 209, 55, 174, 65, 26, 183, 124,
  16, 53, 241, 117, 176, 0, 133, 18, 179, 234, 63, 23, 233, 108, 59, 11]

def WAs1 : List Nat := [
  108, 134, 139, 202, 143, 200, 161, 69, 172, 151, 87, 22, 206, 191, 4, 36,
  137, 40, 24, 103, 121, 58, 164, 59, 98, 89, 62, 114, 81, 51, 194, 146,
  112, 232, 11, 68, 31, 223, 70, 14, 66, 48, 135, 148, 216, 154, 196, 169,
  214, 49, 255, 8, 6, 176, 217, 231, 85, 50, 177, 221, 71, 237, 178, 211,
  124, 230, 147, 208, 239, 205, 212, 13, 141, 210, 247, 100, 184, 195, 245, 64,
  16, 228, 5, 142, 170, 91, 39, 27, 198, 7, 95, 44, 63, 179, 30, 25,
  54, 133, 113, 29, 240, 250, 144, 86, 180, 118, 226, 115, 56, 92, 181, 193,
  149, 57, 32, 20, 224, 43, 241, 47, 155, 60, 156, 67, 204, 120, 37, 150,
  215, 138, 76, 234, 101, 15, 119, 0, 83, 163, 218, 183, 187, 127, 126, 248,
  84, 96, 225, 107, 111, 122, 219, 130, 88, 90, 185, 1, 2, 209, 159, 106,
  78, 117, 188, 116, 229, 45, 38, 102, 52, 93, 73, 46, 35, 80, 173, 110,
  99, 186, 129, 174, 166, 152, 199, 235, 201, 77, 104, 18, 244, 19, 3, 236,
  182, 75, 26, 227, 10, 105, 252, 28, 190, 242, 55, 136, 189, 140, 61, 132,
  175, 213, 243, 207, 251, 72, 82, 192, 222, 168, 246, 220, 167, 145, 162, 238,
  160, 233, 17, 253, 21, 128, 41, 123, 109, 157, 197, 203, 249, 33, 153, 171,
  165, 97, 254, 53, 94, 12, 79, 42, 158, 23, 9, 74, 34, 131, 65, 125]

def M2 : List Nat := [
  8, 247, 174, 82, 136, 152, 243, 109, 121, 149, 102, 187, 78, 184, 61, 254,
  69, 99, 73, 0, 224, 9, 81, 194, 222, 116, 44, 45, 209, 223, 37, 58,
  168, 203, 30, 204, 162, 155, 202, 13, 211, 214, 36, 23, 147, 119, 143, 39,
  7, 83, 219, 195, 79, 14, 179, 104, 220, 193, 232, 50, 200, 103, 216, 105,
  25, 161, 17, 251, 92, 146, 125, 253, 56, 35, 181, 245, 190, 188, 169, 133,
  142, 95, 72, 159, 112, 70, 86, 212, 166, 158, 236, 186, 60, 154, 129, 54,
  88, 111, 148, 127, 40, 68, 233, 238, 244, 164, 51, 21, 221, 234, 199, 101,
  74, 242, 225, 153, 24, 126, 115, 53, 76, 165, 75, 180, 207, 172, 178, 117,
  114, 20, 15, 235, 31, 137, 98, 197, 252, 128, 150, 163, 140, 48, 229, 71,
  120, 91, 239, 160, 151, 52, 138, 2, 96, 250, 144, 171, 38, 77, 255, 141,
  62, 226, 145, 3, 176, 175, 122, 246, 1, 29, 110, 10, 93, 241, 249, 67,
  47, 85, 90, 32, 198, 231, 185, 49, 100, 59, 26, 34, 189, 11, 134, 157,
  208, 108, 135, 237, 131, 192, 217, 5, 156, 123, 65, 46, 248, 218, 89, 167,
  84, 173, 64, 63, 170, 107, 228, 132, 106, 118, 205, 191, 227, 19, 87, 124,
  182, 80, 183, 41, 230, 28, 201, 57, 139, 18, 66, 42, 177, 130, 213, 94,
  4, 196, 12, 215, 113, 240, 97, 43, 22, 27, 210, 16, 206, 55, 33, 6]

def Fs2 : List Nat := [
  108, 148, 106, 247, 248, 34, 212, 131, 103, 249, 220, 100, 161, 81, 9, 79,
  210, 75, 155, 73, 228, 46, 54, 203, 6, 153, 101, 136, 186, 207, 150, 170,
  166, 71, 206, 39, 174, 143, 219, 246, 60, 95, 126, 140, 191, 138, 35, 196,
  17, 21, 250, 18, 62, 223, 190, 225, 139, 25, 29, 188, 3, 77, 184, 154,
  115, 109, 45, 192, 127, 205, 86, 253, 0, 59, 105, 133, 67, 167, 194, 164,
  43, 104, 179, 134, 68, 120, 189, 32, 197, 55, 42, 175, 80, 199, 129, 96,
  4, 234, 176, 147, 74, 182, 243, 211, 217, 193, 76, 122, 168, 102, 231, 172,
  49, 208, 144, 185, 237, 63, 204, 50, 87, 244, 33, 47, 229, 141, 146, 142,
  218, 23, 93, 78, 13, 245, 7, 158, 69, 137, 239, 91, 209, 85, 56, 19,
  51, 202, 5, 177, 181, 152, 38, 70, 132, 83, 114, 255, 110, 156, 65, 97,
  57, 222, 66, 90, 92, 121, 89, 52, 111, 162, 157, 201, 30, 2, 64, 236,
  233, 165, 10, 169, 224, 26, 200, 216, 215, 232, 41, 159, 213, 214, 198, 88,
  31, 195, 242, 145, 151, 14, 173, 226, 163, 28, 36, 72, 107, 58, 221, 11,
  119, 251, 171, 254, 15, 22, 40, 94, 12, 20, 99, 240, 230, 178, 118, 187,
  98, 180, 123, 128, 149, 238, 48, 130, 8, 61, 53, 117, 16, 116, 135, 27,
  24, 44, 112, 183, 1, 84, 125, 124, 160, 113, 241, 252, 82, 37, 227, 235]


/-- State after both LCR fills: s1 = L1, s2 = L2, indices zero. -/
def S0 : ARC4State := ⟨L1, L2, 0, 0, 0, 0, false⟩

/-- State after the first key-mixing pass, before the first warm-up. -/
def SA : ARC4State := ⟨M1, L2, 0, 0, 0, 0, false⟩

/-- State after the first warm-up (s1 permuted, x1 back at 0, y1 = 77). -/
def WA : ARC4State := ⟨WAs1, L2, 0, 77, 0, 0, false⟩

/-- State after the second key-mixing pass, before the second warm-up. -/
def F0 : ARC4State := ⟨WAs1, M2, 0, 77, 0, 0, false⟩

/-- State of the fully constructed engine. -/
def FS : ARC4State := ⟨WAs1, Fs2, 0, 57, 0, 0, false⟩

/-! Helper lemmas. -/

lemma getD_replicate (n i : Nat) : (List.replicate n (0 : Nat)).getD i 0 = 0 := by
  induction n generalizing i with
  | zero => simp [List.getD]
  | succ n ih =>
    cases i with
    | zero => simp [List.replicate_succ]
    | succ i => simpa [List.replicate_succ] using ih i

lemma set_replicate (n i : Nat) : (List.replicate n (0 : Nat)).set i 0 = List.replicate n 0 := by
  induction n generalizing i with
  | zero => simp
  | succ n ih =>
    cases i with
    | zero => simp [List.replicate_succ]
    | succ i => simpa [List.replicate_succ] using ih i

lemma getD_set_ne (l : List Nat) (i j v : Nat) (h : i ≠ j) :
    (l.set i v).getD j 0 = l.getD j 0 := by
  induction l generalizing i j with
  | nil => simp
  | cons a l ih =>
    cases i with
    | zero =>
      cases j with
      | zero => exact absurd rfl h
      | succ j => simp
    | succ i =>
      cases j with
      | zero => simp
      | succ j => simpa using ih i j (by omega)

lemma getD_set_self (l : List Nat) (i v : Nat) (h : i < l.length) :
    (l.set i v).getD i 0 = v := by
  induction l generalizing i with
  | nil => simp at h
  | cons a l ih =>
    cases i with
    | zero => simp
    | succ i => simpa using ih i (by simpa using h)

lemma swapL_replicate (i j : Nat) :
    swapL (List.replicate 256 (0 : Nat)) i j = List.replicate 256 0 := by
  unfold swapL
  rw [getD_replicate, getD_replicate, set_replicate, set_replicate]

lemma nextKey_zero (st : ARC4State) (h : zeroBlocks st) :
    (nextKey st).2 = 0 ∧ zeroBlocks (nextKey st).1 := by
  obtain ⟨h1, h2⟩ := h
  unfold zeroBlocks
  refine ⟨?_, ?_, ?_⟩ <;>
    simp only [nextKey, prgaS1, prgaS2, prgaOn, h1, h2, swapL_replicate, getD_replicate] <;>
    first | rfl | decide

lemma transformLoop_len (n : Nat) :
    ∀ (st : ARC4State) (inp : List Nat) (a : Nat) (out : List Nat) (b : Nat),
      ((transformLoop n st inp a out b).1).length = out.length := by
  induction n with
  | zero => intro st inp a out b; rfl
  | succ n ih =>
    intro st inp a out b
    simp only [transformLoop]
    rw [ih]
    exact List.length_set out b _

lemma transformLoop_getD_lt (n : Nat) :
    ∀ (st : ARC4State) (inp : List Nat) (a : Nat) (out : List Nat) (b j : Nat), j < b →
      ((transformLoop n st inp a out b).1).getD j 0 = out.getD j 0 := by
  induction n with
  | zero => intro st inp a out b j _; rfl
  | succ n ih =>
    intro st inp a out b j hj
    simp only [transformLoop]
    rw [ih _ _ _ _ _ _ (by omega)]
    exact getD_set_ne out b j _ (by omega)

lemma transformLoop_zero (n : Nat) :
    ∀ (st : ARC4State) (inp : List Nat) (a : Nat) (out : List Nat) (b : Nat), zeroBlocks st →
      ∀ i, i < n → b + i < out.length →
        ((transformLoop n st inp a out b).1).getD (b + i) 0 = inp.getD (a + i) 0 := by
  induction n with
  | zero => intro st inp a out b _ i hi _; exact absurd hi (Nat.not_lt_zero i)
  | succ n ih =>
    intro st inp a out b hz i hi hb
    obtain ⟨hk, hz'⟩ := nextKey_zero st hz
    simp only [transformLoop]
    rw [hk]
    cases i with
    | zero =>
      rw [transformLoop_getD_lt n _ _ _ _ _ _ (by omega)]
      simp only [Nat.add_zero]
      rw [getD_set_self out b _ (by omega)]
      simp
    | succ i =>
      rw [show b + (i + 1) = (b + 1) + i from by omega,
        show a + (i + 1) = (a + 1) + i from by omega]
      refine ih _ _ _ _ _ hz' i (by omega) ?_
      rw [List.length_set]
      omega

lemma transform_block_ok (st : ARC4State) (inp : List Nat) (inputOffset count : Nat)
    (out : List Nat) (outputOffset : Nat)
    (h1 : inputOffset < inp.length) (h2 : inputOffset + count ≤ inp.length)
    (h3 : outputOffset < out.length) (h4 : outputOffset + count ≤ out.length) :
    transform_block st inp inputOffset count out outputOffset =
      (none, count, (transformLoop count st inp inputOffset out outputOffset).1,
        (transformLoop count st inp inputOffset out outputOffset).2) := by
  unfold transform_block
  split_ifs with g1 g2 g3 g4 <;> first | rfl | (exfalso; omega)

lemma transformLoop_split (m : Nat) :
    ∀ (n : Nat) (st : ARC4State) (inp : List Nat) (a : Nat) (out : List Nat) (b : Nat),
      transformLoop (m + n) st inp a out b =
        transformLoop n (transformLoop m st inp a out b).2 inp (a + m)
          (transformLoop m st inp a out b).1 (b + m) := by
  induction m with
  | zero => intro n st inp a out b; simp [transformLoop]
  | succ m ih =>
    intro n st inp a out b
    rw [show m + 1 + n = (m + n) + 1 from by omega]
    simp only [transformLoop]
    rw [ih n _ inp (a + 1) _ (b + 1),
      show a + 1 + m = a + (m + 1) from by omega,
      show b + 1 + m = b + (m + 1) from by omega]

lemma processChunks_eq (inp : List Nat) :
    ∀ (chunks : List Nat), (∀ c ∈ chunks, 1 ≤ c) →
      ∀ (off : Nat) (st : ARC4State) (out : List Nat),
        off + chunks.sum ≤ inp.length → inp.length ≤ out.length →
        processChunksAux chunks off st inp out =
          (none, (transformLoop chunks.sum st inp off out off).1,
            (transformLoop chunks.sum st inp off out off).2) := by
  intro chunks
  induction chunks with
  | nil => intro _ off st out _ _; simp [processChunksAux, transformLoop]
  | cons c cs ih =>
    intro hc off st out hsum hlen
    have hc1 : 1 ≤ c := hc c (List.mem_cons_self c cs)
    have hcs : ∀ x ∈ cs, 1 ≤ x := fun x hx => hc x (List.mem_cons_of_mem c hx)
    have hs : off + (c + cs.sum) ≤ inp.length := by simpa using hsum
    simp only [processChunksAux]
    rw [transform_block_ok st inp off c out off (by omega) (by omega) (by omega) (by omega)]
    dsimp only
    rw [ih hcs (off + c) _ _ (by omega) (by rw [transformLoop_len]; exact hlen)]
    rw [List.sum_cons, transformLoop_split c cs.sum st inp off out off]

lemma getL_eq (l : List Nat) : ∀ n, getL l n = l.getD n 0 := by
  induction l with
  | nil => intro n; cases n <;> rfl
  | cons a l ih =>
    intro n
    cases n with
    | zero => rfl
    | succ m =>
      rw [show getL (a :: l) (m + 1) = getL l m from rfl,
        show (a :: l).getD (m + 1) 0 = l.getD m 0 from rfl]
      exact ih m

lemma setL_eq (l : List Nat) : ∀ n v, setL l n v = l.set n v := by
  induction l with
  | nil => intro n v; cases n <;> rfl
  | cons a l ih =>
    intro n v
    cases n with
    | zero => rfl
    | succ m =>
      rw [show setL (a :: l) (m + 1) v = a :: setL l m v from rfl,
        show (a :: l).set (m + 1) v = a :: l.set m v from rfl, ih m v]

lemma swapLR_eq (l : List Nat) (i j : Nat) : swapLR l i j = swapL l i j := by
  simp only [swapLR, swapL, getL_eq, setL_eq]

lemma prgaS1R_eq (st : ARC4State) : prgaS1R st = prgaS1 st := by
  simp only [prgaS1R, prgaS1, prgaOn, getL_eq, swapLR_eq]

lemma prgaS2R_eq (st : ARC4State) : prgaS2R st = prgaS2 st := by
  simp only [prgaS2R, prgaS2, prgaOn, getL_eq, swapLR_eq]

lemma ksaLoopR_eq (key : List Nat) :
    ∀ fuel i j blk, ksaLoopR key fuel i j blk = ksaLoop key fuel i j blk := by
  intro fuel
  induction fuel with
  | zero => intro i j blk; rfl
  | succ n ih =>
    intro i j blk
    rw [show ksaLoopR key (n + 1) i j blk =
        ksaLoopR key n (i + 1) ((j + getL blk i + getL key (i % key.length)) % 256)
          (swapLR blk i ((j + getL blk i + getL key (i % key.length)) % 256)) from rfl]
    rw [ih]
    simp only [ksaLoop, getL_eq, swapLR_eq]

lemma iterR_eq (f fR : ARC4State → ARC4State) (hf : ∀ st, fR st = f st) :
    ∀ n st, iterR fR n st = iterN f n st := by
  intro n
  induction n with
  | zero => intro st; rfl
  | succ m ih =>
    intro st
    rw [show iterR fR (m + 1) st = iterR fR m (fR st) from rfl, hf, ih]
    rfl

lemma lcr_zero_iv : lcr ivZero = L1 := by decide

lemma lcr_shift_iv : lcr (shiftIV ivZero) = L2 := by decide

lemma mix_s1 : ksaLoop pwKey 256 0 0 L1 = M1 := by
  rw [← ksaLoopR_eq]
  decide

lemma warm_s1 : iterN prgaS1 256 SA = WA := by
  rw [← iterR_eq prgaS1 prgaS1R prgaS1R_eq]
  decide

lemma mix_s2 : ksaLoop pwKey 256 0 0 L2 = M2 := by
  rw [← ksaLoopR_eq]
  decide

lemma warm_s2 : iterN prgaS2 256 F0 = FS := by
  rw [← iterR_eq prgaS2 prgaS2R prgaS2R_eq]
  decide

lemma preKsa_lit : preKsaState ivZero = S0 := by
  unfold preKsaState
  rw [lcr_zero_iv, lcr_shift_iv]
  rfl

lemma ksaS1_lit : ksaS1 pwKey S0 = WA := by
  unfold ksaS1
  rw [show S0.s1 = L1 from rfl, mix_s1,
    show ({ S0 with s1 := M1 } : ARC4State) = SA from rfl, warm_s1]

lemma ksaS2_lit : ksaS2 pwKey WA = FS := by
  unfold ksaS2
  rw [show WA.s2 = L2 from rfl, mix_s2,
    show ({ WA with s2 := M2 } : ARC4State) = F0 from rfl, warm_s2]

lemma initState_lit : initState pwKey ivZero = FS := by
  unfold initState
  rw [preKsa_lit, ksaS1_lit, ksaS2_lit]

/-- First keystream byte of the engine keyed with the ASCII bytes of
"password" and the all-zero IV: the concrete value of the uncombined,
untruncated combiner output.  Shared by the C2, C3 and C4 theorems. -/
lemma firstKeyValue : (nextKey (initState pwKey ivZero)).2 = 1069 := by
  rw [initState_lit]
  decide

lemma finalLoop_step (n : Nat) (st : ARC4State) (inp : List Nat) (inPos : Nat)
    (out : List Nat) (i : Nat) (hv : inp.getD inPos 0 ^^^ (nextKey st).2 ≥ 256) :
    finalLoop (n + 1) st inp inPos out i = Except.error TErr.byteRange := by
  simp only [finalLoop]
  rw [if_pos hv]

/-! Claim theorems. -/

/-- Claim C1 (code_bug): the per-byte keystream step never updates x2 or y2 —
the second prga call advances x1 a second time instead, so the claimed
update x2 to (x2 + 1) mod 256 never happens and k2 is always read with the
original (never-advanced) x2, y2. -/
theorem C1_thm (st : ARC4State) :
    (nextKey st).1.x2 = st.x2 ∧ (nextKey st).1.y2 = st.y2 ∧
      (nextKey st).1.x1 = ((st.x1 + 1) % 256 + 1) % 256 :=
  ⟨rfl, rfl, rfl⟩

/-- Claim C2 (code_bug): encrypting "Hello, world!" via transform_final_block
on a fresh engine keyed with "password" and the zero IV raises the bytearray
range ValueError (the combined key byte exceeds 255), so the round trip
never produces a ciphertext, let alone decrypts back to the plaintext. -/
theorem C2_thm :
    transform_final_block (initState pwKey ivZero) helloBytes 0 13 =
      Except.error TErr.byteRange := by
  have h1 : ¬((0 : Nat) ≥ helloBytes.length) := by decide
  have h2 : ¬((0 : Nat) + 13 > helloBytes.length) := by decide
  have h3 : ¬((13 : Nat) = 0) := by decide
  unfold transform_final_block
  rw [if_neg h1, if_neg h2, if_neg h3, show (13 : Nat) = 12 + 1 from rfl, finalLoop_step]
  rw [firstKeyValue]
  decide

/-- Claim C3 (code_bug): the very first keystream value of the engine keyed
with "password" and the zero IV is 1069, far above 255 — the code never
truncates (k1 + k2) XOR ((k1 shl 5) or (k2 shr 3)) to one byte. -/
theorem C3_thm :
    (nextKey (initState pwKey ivZero)).2 = 1069 ∧
      255 < (nextKey (initState pwKey ivZero)).2 :=
  ⟨firstKeyValue, by rw [firstKeyValue]; decide⟩

/-- Claim C4 (code_bug): a transform_final_block call whose argument
validation succeeds (offset 0, count 1 on a 1-byte buffer) nevertheless
raises mid-transform: the bytearray write of input XOR k fails because k was
not reduced mod 256. -/
theorem C4_thm :
    transform_final_block (initState pwKey ivZero) [72] 0 1 =
      Except.error TErr.byteRange := by
  have h1 : ¬((0 : Nat) ≥ ([72] : List Nat).length) := by decide
  have h2 : ¬((0 : Nat) + 1 > ([72] : List Nat).length) := by decide
  have h3 : ¬((1 : Nat) = 0) := by decide
  unfold transform_final_block
  rw [if_neg h1, if_neg h2, if_neg h3, show (1 : Nat) = 0 + 1 from rfl, finalLoop_step]
  rw [firstKeyValue]
  decide

/-- Claim C5 counterexample: constructing with an empty (non-null) key and a
valid 4-byte IV does not fail with InvalidArgument — it passes every explicit
validation and crashes inside the key scheduler with ZeroDivisionError. -/
theorem C5_cex :
    construct (some []) (some [0, 0, 0, 0]) = Except.error CtorErr.zeroDivision := rfl

/-- Claim C5 (corrected): construction fails with InvalidArgument exactly
when the key is null, the IV is null, or the IV is present but not 4 bytes
long; an empty key is NOT rejected by validation. -/
theorem C5_thm (key? iv? : Option (List Nat)) :
    (∃ s, construct key? iv? = Except.error (CtorErr.invalidArgument s)) ↔
      (key? = none ∨ iv? = none ∨ ∃ iv, iv? = some iv ∧ iv.length ≠ 4) := by
  cases key? with
  | none => simp [construct]
  | some key =>
    cases iv? with
    | none => simp [construct]
    | some iv =>
      by_cases h4 : iv.length = 4
      · by_cases hk : key.length = 0 <;> simp [construct, h4, hk]
      · simp [construct, h4]

/-- Claim C6 counterexample: with IV byte 3 equal to 50 the engine and the
claim disagree, because the increment table has 52 entries, not 50: the code
selects entry 50 while the claim's mod-50 indexing selects entry 0. -/
theorem C6_cex : (preKsaState [0, 0, 0, 50]).s1 ≠ lcrClaimC6 [0, 0, 0, 50] := by decide

/-- Claim C6 (corrected): before key scheduling S1 is the LCR block of the IV
and S2 the LCR block of the shifted-and-rotated IV, exactly as claimed except
that the increment selector is reduced mod 52 (the real table length). -/
theorem C6_thm (iv : List Nat) (h : iv.length = 4) :
    (preKsaState iv).s1 = lcrSpecAmended iv ∧
      (preKsaState iv).s2 = lcrSpecAmended (s2SeedSpec iv) := by
  obtain ⟨a, b, c, d, rfl⟩ : ∃ a b c d, iv = [a, b, c, d] := by
    rcases iv with _ | ⟨a, iv⟩
    · simp at h
    rcases iv with _ | ⟨b, iv⟩
    · simp at h
    rcases iv with _ | ⟨c, iv⟩
    · simp at h
    rcases iv with _ | ⟨d, iv⟩
    · simp at h
    rcases iv with _ | ⟨e, iv⟩
    · exact ⟨a, b, c, d, rfl⟩
    · simp at h
  exact ⟨rfl, rfl⟩

/-- Witness for C6_thm at the concrete IV 1, 2, 3, 4. -/
theorem C6_w :
    ([1, 2, 3, 4] : List Nat).length = 4 ∧
      ((preKsaState [1, 2, 3, 4]).s1 = lcrSpecAmended [1, 2, 3, 4] ∧
        (preKsaState [1, 2, 3, 4]).s2 = lcrSpecAmended (s2SeedSpec [1, 2, 3, 4])) :=
  ⟨by decide, C6_thm [1, 2, 3, 4] (by decide)⟩

/-- Claim C7 counterexample: the split of the 1-byte plaintext into chunks of
sizes 1 and 0 fails (the trailing zero-length call trips the strict
input-offset check), while the single whole-buffer call succeeds — so not
every split summing to n behaves like the single call. -/
theorem C7_cex :
    (processChunksAux [1, 0] 0 zeroState [7] [0]).1 =
        some (TErr.outOfRange "Input offset is out of range for the input buffer.") ∧
      (transform_block zeroState [7] 0 1 [0] 0).1 = none := by decide

/-- Claim C7 (corrected): for a nonempty plaintext and a split into nonempty
consecutive chunks whose lengths sum to the plaintext length, feeding the
chunks through successive transform_block calls on one engine produces
exactly the ciphertext and final state of a single whole-plaintext call. -/
theorem C7_thm (st : ARC4State) (inp out chunks : List Nat)
    (hc : ∀ c ∈ chunks, 1 ≤ c) (hsum : chunks.sum = inp.length)
    (hlen : inp.length ≤ out.length) (hpos : 1 ≤ inp.length) :
    ∃ outF stF,
      processChunksAux chunks 0 st inp out = (none, outF, stF) ∧
        transform_block st inp 0 inp.length out 0 = (none, inp.length, outF, stF) := by
  refine ⟨(transformLoop inp.length st inp 0 out 0).1,
    (transformLoop inp.length st inp 0 out 0).2, ?_, ?_⟩
  · have hp := processChunks_eq inp chunks hc 0 st out (by omega) hlen
    rw [hsum] at hp
    exact hp
  · exact transform_block_ok st inp 0 inp.length out 0 (by omega) (by omega) (by omega)
      (by omega)

/-- Witness for C7_thm: chunks 1, 1 of the 2-byte input 3, 4. -/
theorem C7_w :
    (∀ c ∈ ([1, 1] : List Nat), 1 ≤ c) ∧
      ∃ outF stF,
        processChunksAux [1, 1] 0 zeroState [3, 4] [0, 0] = (none, outF, stF) ∧
          transform_block zeroState [3, 4] 0 ([3, 4] : List Nat).length [0, 0] 0 =
            (none, ([3, 4] : List Nat).length, outF, stF) :=
  ⟨by decide, C7_thm zeroState [3, 4] [0, 0] [1, 1] (by decide) (by decide) (by decide)
    (by decide)⟩

/-- Claim C8 (confirmed): any transform_block call whose count overruns the
input or the output buffer fails with one of the OutOfRange errors, returning
0 and leaving the output buffer and the whole cipher state unchanged. -/
theorem C8_thm (st : ARC4State) (input : List Nat) (inputOffset count : Nat)
    (output : List Nat) (outputOffset : Nat)
    (h : inputOffset + count > input.length ∨ outputOffset + count > output.length) :
    ∃ s, transform_block st input inputOffset count output outputOffset =
      (some (TErr.outOfRange s), 0, output, st) := by
  unfold transform_block
  split_ifs with g1 g2 g3 g4 <;> first | exact ⟨_, rfl⟩ | (exfalso; omega)

/-- Witness for C8_thm: count 2 against 1-byte buffers. -/
theorem C8_w :
    (0 + 2 > ([5] : List Nat).length ∨ 0 + 2 > ([6] : List Nat).length) ∧
      ∃ s, transform_block zeroState [5] 0 2 [6] 0 =
        (some (TErr.outOfRange s), 0, [6], zeroState) :=
  ⟨Or.inl (by decide), C8_thm zeroState [5] 0 2 [6] 0 (Or.inl (by decide))⟩

/-- Claim C9 counterexample: a count-0 call on empty buffers does NOT
succeed — the strict offset check inputOffset < len(input) is applied even
when count is 0, so the call fails with OutOfRange. -/
theorem C9_cex :
    transform_block zeroState [] 0 0 [] 0 =
      (some (TErr.outOfRange "Input offset is out of range for the input buffer."),
        0, [], zeroState) := rfl

/-- Claim C9 (corrected): a count-0 transform_block call returns 0 with no
state mutation and no output write, but only when both offsets are strictly
inside their buffers; the offset bounds are still checked. -/
theorem C9_thm (st : ARC4State) (input : List Nat) (inputOffset : Nat)
    (output : List Nat) (outputOffset : Nat)
    (h1 : inputOffset < input.length) (h2 : outputOffset < output.length) :
    transform_block st input inputOffset 0 output outputOffset = (none, 0, output, st) := by
  unfold transform_block
  split_ifs with g1 g2 g3 g4 <;> first | rfl | (exfalso; omega)

/-- Witness for C9_thm: count 0 with in-range offsets. -/
theorem C9_w :
    0 < ([5] : List Nat).length ∧ 0 < ([6] : List Nat).length ∧
      transform_block zeroState [5] 0 0 [6] 0 = (none, 0, [6], zeroState) :=
  ⟨by decide, by decide, C9_thm zeroState [5] 0 [6] 0 (by decide) (by decide)⟩

/-- Claim C10 (confirmed): after dispose, a transform_block call with valid
bounds succeeds (returns count, no error) and, the zeroed tables producing an
identically-zero keystream, every output byte written equals the
corresponding input byte. -/
theorem C10_thm (st : ARC4State) (input : List Nat) (inputOffset count : Nat)
    (output : List Nat) (outputOffset : Nat) (hd : st.disposed = false)
    (h1 : inputOffset < input.length) (h2 : inputOffset + count ≤ input.length)
    (h3 : outputOffset < output.length) (h4 : outputOffset + count ≤ output.length) :
    (transform_block (dispose st) input inputOffset count output outputOffset).1 = none ∧
      (transform_block (dispose st) input inputOffset count output outputOffset).2.1 = count ∧
      ∀ i, i < count →
        ((transform_block (dispose st) input inputOffset count output outputOffset).2.2.1).getD
            (outputOffset + i) 0 = input.getD (inputOffset + i) 0 := by
  have hdz : dispose st = zeroState := by simp [dispose, hd, zeroState]
  rw [transform_block_ok _ _ _ _ _ _ h1 h2 h3 h4]
  refine ⟨rfl, rfl, ?_⟩
  intro i hi
  refine transformLoop_zero count _ input inputOffset output outputOffset ?_ i hi (by omega)
  rw [hdz]
  exact ⟨rfl, rfl⟩

/-- Witness for C10_thm: disposing the sample state, then transforming one
byte copies it through unchanged. -/
theorem C10_w :
    sampleState.disposed = false ∧
      ((transform_block (dispose sampleState) [5] 0 1 [9] 0).1 = none ∧
        (transform_block (dispose sampleState) [5] 0 1 [9] 0).2.1 = 1 ∧
        ∀ i, i < 1 →
          ((transform_block (dispose sampleState) [5] 0 1 [9] 0).2.2.1).getD (0 + i) 0 =
            ([5] : List Nat).getD (0 + i) 0) :=
  ⟨rfl, C10_thm sampleState [5] 0 1 [9] 0 rfl (by decide) (by decide) (by decide) (by decide)⟩

end ARC4
